import Mathlib

set_option autoImplicit false

/-!
Shallow embedding of the Chakra JS SDK core (src/chakra.ts, src/exceptions.ts):
the authentication session manager, the positional-parameter rewriter, the
type-inference maps, and the push pipeline, together with theorems about the
behaviour of these operations.
-/

namespace ChakraSpec

/-- JavaScript runtime values as the SDK observes them: the code only inspects
`typeof value` (number / boolean), `value instanceof Date`, and otherwise
treats the value as text.  A JS number is modelled as a rational; the code's
only numeric observation is `Number.isInteger`, which holds exactly when the
denominator is 1. -/
inductive JsValue where
  | num (q : ℚ)
  | bool (b : Bool)
  | date (ms : Int)
  | str (s : String)
  | null
  | undef
  deriving DecidableEq, Repr

/-- `mapJsTypeToDuckDbType` from chakra.ts: integral number to BIGINT,
other number to DOUBLE, boolean to BOOLEAN, Date to TIMESTAMP, anything
else to VARCHAR. -/
def mapJsTypeToDuckDbType : JsValue → String
  | .num q => if q.den = 1 then "BIGINT" else "DOUBLE"
  | .bool _ => "BOOLEAN"
  | .date _ => "TIMESTAMP"
  | _ => "VARCHAR"

/-- The parquet field-type derivation inlined in `authenticated_push`
(schemaFields): number to DOUBLE, boolean to BOOLEAN, Date to
TIMESTAMP_MILLIS, anything else to UTF8. -/
def parquetFieldType : JsValue → String
  | .num _ => "DOUBLE"
  | .bool _ => "BOOLEAN"
  | .date _ => "TIMESTAMP_MILLIS"
  | _ => "UTF8"

/-- Consistency of the SQL column type with the parquet field type, following
the specification: both derivations classify a value the same way
(BIGINT and DOUBLE are the numeric SQL types backed by parquet DOUBLE,
BOOLEAN matches BOOLEAN, TIMESTAMP matches TIMESTAMP_MILLIS, VARCHAR
matches UTF8). -/
def sqlParquetConsistent (sqlTy parquetTy : String) : Bool :=
  (sqlTy == "BIGINT" && parquetTy == "DOUBLE") ||
  (sqlTy == "DOUBLE" && parquetTy == "DOUBLE") ||
  (sqlTy == "BOOLEAN" && parquetTy == "BOOLEAN") ||
  (sqlTy == "TIMESTAMP" && parquetTy == "TIMESTAMP_MILLIS") ||
  (sqlTy == "VARCHAR" && parquetTy == "UTF8")

/-- The error taxonomy of the SDK (exceptions.ts plus the JS runtime):
plain `Error`, `TypeError`, a raw axios transport error carrying an HTTP
response status, `ChakraAPIError` wrapping a response status, and
`ChakraAuthError` (constructed in the SDK without a response attached). -/
inductive Err where
  | jsError (msg : String)
  | typeError (msg : String)
  | axiosError (status : Nat)
  | apiError (status : Nat)
  | authError (msg : String)
  deriving DecidableEq, Repr

/-- `handleApiError` from chakra.ts: an axios error that carries a response
is rethrown as a `ChakraAPIError` with that response; every other error is
rethrown unchanged. -/
def handleApiError : Err → Err
  | .axiosError s => .apiError s
  | e => e

/-- The 401 test in `ensureAuthenticated`: the error is an axios error or a
`ChakraAPIError` whose response status is 401. -/
def isAuthFailure : Err → Bool
  | .axiosError s => s == 401
  | .apiError s => s == 401
  | _ => false

/-- Whether an error is a `ChakraAuthError`. -/
def isChakraAuthErr : Err → Bool
  | .authError _ => true
  | _ => false

/-- JS truthiness of the `string | null` token field: `null` and the empty
string are falsy. -/
def tokenTruthy : Option String → Bool
  | none => false
  | some v => v != ""

/-- The observable client state: the `tokenValue` field and the axios
instance default `Authorization` header. -/
structure ClientState where
  tokenValue : Option String
  authHeader : Option String
  deriving DecidableEq, Repr

/-- The constructor: no token and no `Authorization` default header. -/
def initClient : ClientState := ⟨none, none⟩

/-- The `token` setter from chakra.ts: stores the value; when the value is
truthy it sets the default header to `Bearer` followed by the token,
otherwise it deletes the header. -/
def setToken (_st : ClientState) (val : Option String) : ClientState :=
  { tokenValue := val
    authHeader := if tokenTruthy val then some ("Bearer " ++ val.getD "") else none }

/-- Client states reachable from construction through the `token` setter. -/
inductive ReachableClient : ClientState → Prop where
  | init : ReachableClient initClient
  | set (st : ClientState) (v : Option String) :
      ReachableClient st → ReachableClient (setToken st v)

/-- The fixed token type tag `TOKEN_PREFIX` of chakra.ts. -/
def tokenTag : String := "DDB_"

/-- Message of the error thrown by `login` when the token fails the tag check. -/
def tagFailMsg : String := "Token must start with DDB_"

/-- `fetchToken`: posts the credentials; on transport failure the error goes
through `handleApiError` (the trailing `ChakraAuthError` throw is
unreachable because `handleApiError` always throws).  The remote outcome is
a parameter: either the token string of the response or an error. -/
def fetchToken (remote : Except Err String) : Except Err String :=
  match remote with
  | .ok t => .ok t
  | .error e => .error (handleApiError e)

/-- `token.startsWith(TOKEN_PREFIX)`: whether the token begins with the
`DDB_` tag, expressed over the character lists. -/
def startsWithTag (t : String) : Bool :=
  tokenTag.toList.isPrefixOf t.toList

/-- `login`: fetches a token; if it starts with the `DDB_` tag, stores it
through the `token` setter, otherwise throws a plain `Error` and leaves the
state unchanged. -/
def login (remote : Except Err String) (st : ClientState) :
    Except Err Unit × ClientState :=
  match fetchToken remote with
  | .error e => (.error e, st)
  | .ok t =>
      if startsWithTag t then (.ok (), setToken st (some t))
      else (.error (.jsError tagFailMsg), st)

/-- Result of a run of `ensureAuthenticated`: the final outcome together
with how many times `login` was entered and how many times the wrapped
operation was invoked. -/
structure AuthRun (α : Type) where
  result : Except Err α
  logins : Nat
  opCalls : Nat
  deriving Repr

/-- Message of the `ChakraAuthError` raised when the attempt budget is
exhausted. -/
def attemptsExhaustedMsg : String := "Failed to authenticate after 3 attempts."

/-- The `while attempt < maxAttempts` loop of `ensureAuthenticated`, with
`fuel` the number of attempts left.  Each iteration logs in first when the
held token is falsy (a failing login propagates its error), then runs the
operation; a 401 failure consumes one attempt, logs in again and loops,
any other failure is rethrown at once.  `loginRes` and `opRes` script the
remote outcome of the k-th login and the k-th operation invocation. -/
def ensureAuthGo {α : Type} (loginRes : Nat → Except Err String)
    (opRes : Nat → Except Err α) :
    Nat → ClientState → Nat → Nat → AuthRun α
  | 0, _, li, oi => ⟨.error (.authError attemptsExhaustedMsg), li, oi⟩
  | fuel + 1, st, li, oi =>
    let pre : Except Err ClientState × Nat :=
      if tokenTruthy st.tokenValue then (.ok st, li)
      else
        match login (loginRes li) st with
        | (.ok _, st') => (.ok st', li + 1)
        | (.error e, _) => (.error e, li + 1)
    match pre with
    | (.error e, li1) => ⟨.error e, li1, oi⟩
    | (.ok st1, li1) =>
      match opRes oi with
      | .ok a => ⟨.ok a, li1, oi + 1⟩
      | .error e =>
          if isAuthFailure e then
            match login (loginRes li1) st1 with
            | (.ok _, st2) => ensureAuthGo loginRes opRes fuel st2 (li1 + 1) (oi + 1)
            | (.error e2, _) => ⟨.error e2, li1 + 1, oi + 1⟩
          else ⟨.error e, li1, oi + 1⟩

/-- `ensureAuthenticated`: the retry wrapper with its fixed
`maxAttempts = 3`. -/
def ensureAuthenticated {α : Type} (loginRes : Nat → Except Err String)
    (opRes : Nat → Except Err α) (st : ClientState) : AuthRun α :=
  ensureAuthGo loginRes opRes 3 st 0 0

/-- Maximal run of leading decimal digits of a character list, with the
remainder: the `(\d+)` group of the placeholder regex. -/
def takeDigits : List Char → List Char × List Char
  | [] => ([], [])
  | c :: cs =>
      if c.isDigit then
        let p := takeDigits cs
        (c :: p.1, p.2)
      else ([], c :: cs)

/-- `parseInt` on a non-empty run of decimal digits. -/
def digitsToNat (ds : List Char) : Nat :=
  ds.foldl (fun a c => a * 10 + (c.toNat - 48)) 0

/-- One pass of the regex `\$(\d+)` over the query: literal characters stay
as they are (`Sum.inl`), each match becomes the parsed placeholder number
(`Sum.inr`).  A dollar sign not followed by a digit is a literal. -/
def scanTokens : List Char → List (Char ⊕ Nat)
  | [] => []
  | c :: cs =>
    if c = '$' then
      if (takeDigits cs).1.isEmpty then Sum.inl '$' :: scanTokens cs
      else Sum.inr (digitsToNat (takeDigits cs).1) :: scanTokens (takeDigits cs).2
    else Sum.inl c :: scanTokens cs
termination_by l => l.length
decreasing_by
  · simp
  · have hr : (takeDigits cs).2.length ≤ cs.length := by
      clear * -
      induction cs with
      | nil => simp [takeDigits]
      | cons c cs ih =>
          simp only [takeDigits]
          split
          · exact Nat.le_succ_of_le ih
          · simp
    simp only [List.length_cons]
    omega
  · simp

/-- Message of the error thrown by `replacePositionalParameters` on an
out-of-range placeholder index. -/
def paramErrMsg : String := "Chakra DB does not support more than 8 positional parameters"

/-- The replacement callback of `replacePositionalParameters`, applied to
each token of the scanned query in order: a placeholder number `n` with
`idx = n - 1` outside the bounds of `params` throws, otherwise the
placeholder becomes `?` and `params[idx]` is pushed onto the new parameter
list. -/
def replaceTokens {α : Type} (params : List α) :
    List (Char ⊕ Nat) → Except Err (List Char × List α)
  | [] => .ok ([], [])
  | Sum.inl c :: ts =>
    match replaceTokens params ts with
    | .error e => .error e
    | .ok (q, ps) => .ok (c :: q, ps)
  | Sum.inr n :: ts =>
    match n, params[n - 1]? with
    | 0, _ => .error (.jsError paramErrMsg)
    | _ + 1, none => .error (.jsError paramErrMsg)
    | _ + 1, some p =>
      match replaceTokens params ts with
      | .error e => .error e
      | .ok (q, ps) => .ok ('?' :: q, p :: ps)

/-- `replacePositionalParameters` from chakra.ts:
`query.replace(/\$(\d+)/g, cb)` where the callback checks the index bounds,
collects the referenced parameter and produces `?`. -/
def replacePositionalParameters {α : Type} (params : List α) (query : List Char) :
    Except Err (List Char × List α) :=
  replaceTokens params (scanTokens query)

/-- `queryHasPositionalParameters` from chakra.ts: the test of the regex
`\$\d+`, true exactly when some dollar sign is immediately followed by a
digit. -/
def queryHasPositionalParameters : List Char → Bool
  | c :: d :: rest =>
      (c == '$' && d.isDigit) || queryHasPositionalParameters (d :: rest)
  | _ => false

/-- The placeholder number of a scanned token, when it is one. -/
def tokNum : Char ⊕ Nat → Option Nat
  | .inr n => some n
  | .inl _ => none

/-- The placeholder numbers of a query, in occurrence order. -/
def ppOccurrences (query : List Char) : List Nat :=
  (scanTokens query).filterMap tokNum

/-- A scanned token as it appears in the rewritten query. -/
def rewriteTok : Char ⊕ Nat → Char
  | .inl c => c
  | .inr _ => '?'

/-- The query with every placeholder rewritten to `?`. -/
def rewriteQuery (query : List Char) : List Char :=
  (scanTokens query).map rewriteTok

/-- One record built by `authenticated_execute` from a response row: the JS
object assembled by `columns.forEach`, with `row[idx]` undefined past the
end of the row. -/
def zipRowToRecord (columns : List String) (row : List JsValue) :
    List (String × JsValue) :=
  columns.mapIdx fun idx c => (c, row.getD idx .undef)

/-- Message of the error thrown when an authenticated operation runs with a
falsy token. -/
def authRequiredMsg : String := "Authentication required"

/-- Result of `authenticated_execute`: the returned records or the error,
together with the list of `/api/v1/query` posts that were issued (the sql
characters and the forwarded parameter array of each). -/
structure ExecOutcome where
  result : Except Err (List (List (String × JsValue)))
  posts : List (List Char × List JsValue)
  deriving Repr

/-- `authenticated_execute` from chakra.ts: requires a truthy token,
rewrites positional placeholders when the query has any, posts
`sql, parameters` to the query endpoint (its remote outcome `resp` is
either the `columns, rows` payload or an HTTP status), zips each row with
the column names, and routes any caught error through `handleApiError`. -/
def authenticated_execute (resp : Except Nat (List String × List (List JsValue)))
    (query : List Char) (parameters : List JsValue) (st : ClientState) :
    ExecOutcome :=
  if !tokenTruthy st.tokenValue then ⟨.error (.jsError authRequiredMsg), []⟩
  else
    match
      (if queryHasPositionalParameters query then
        replacePositionalParameters parameters query
      else .ok (query, parameters)) with
    | .error e => ⟨.error (handleApiError e), []⟩
    | .ok (q, ps) =>
      match resp with
      | .error s => ⟨.error (handleApiError (.axiosError s)), [(q, ps)]⟩
      | .ok (cols, rows) => ⟨.ok (rows.map (zipRowToRecord cols)), [(q, ps)]⟩

/-- The observable effects of a push: remote requests, and the lifecycle of
the local temporary file.  `serialize` records the parquet schema derived
from the sample and the number of appended rows (a local effect). -/
inductive Ev where
  | postDatabases (name : String)
  | postQuery (sql : String)
  | serialize (schemaFields : List (String × String)) (rows : Nat)
  | getPresigned (filename : String)
  | putUpload (url : String)
  | importPlain (table : String) (key : String)
  | importDedup (table : String) (key : String) (pk : List String)
  | deleteFile (key : String)
  | tmpCreated
  | tmpCleanup
  deriving DecidableEq, Repr

/-- Outcome of one remote HTTP call: success, or an error response with an
HTTP status. -/
inductive CallOutcome where
  | ok
  | err (status : Nat)
  deriving DecidableEq, Repr

/-- A transport script: the outcome of the n-th remote call of a push. -/
abbrev Env := Nat → CallOutcome

/-- The transport on which every remote call succeeds. -/
def okEnv : Env := fun _ => .ok

/-- A remote call that raises the raw axios error on a non-2xx outcome. -/
def singleCall (env : Env) (n : Nat) (ev : Ev) :
    Except Err Unit × Nat × List Ev :=
  match env n with
  | .ok => (.ok (), n + 1, [ev])
  | .err s => (.error (.axiosError s), n + 1, [ev])

/-- `tableName.split` on the dot character, over the character list:
the JS `String.split('.')` (the empty string yields one empty segment). -/
def splitOnDot (s : List Char) : List (List Char) :=
  s.foldr
    (fun c acc => if c = '.' then [] :: acc else (c :: acc.headD []) :: acc.tail)
    [[]]

/-- The schema-creation statement of `createDatabaseAndSchema`. -/
def createSchemaSql (databaseName schemaName : String) : String :=
  "CREATE SCHEMA IF NOT EXISTS " ++ databaseName ++ "." ++ schemaName

/-- `createDatabaseAndSchema` from chakra.ts: posts the database creation
(a 409 conflict is swallowed, any other failure goes through
`handleApiError`), then posts the `CREATE SCHEMA IF NOT EXISTS` statement
(whose failure is the raw axios error). -/
def createDatabaseAndSchema (env : Env) (n : Nat) (tableName : String) :
    Except Err Unit × Nat × List Ev :=
  let databaseName := String.mk ((splitOnDot tableName.toList).getD 0 [])
  let schemaName := String.mk ((splitOnDot tableName.toList).getD 1 [])
  let afterDb : Except Err Unit :=
    match env n with
    | .ok => .ok ()
    | .err s => if s = 409 then .ok () else .error (handleApiError (.axiosError s))
  match afterDb with
  | .error e => (.error e, n + 1, [.postDatabases databaseName])
  | .ok _ =>
    match singleCall env (n + 1) (.postQuery (createSchemaSql databaseName schemaName)) with
    | (r, n2, t2) => (r, n2, .postDatabases databaseName :: t2)

/-- The column definitions derived by `createTable` from the sample record. -/
def columnDefs (sample : List (String × JsValue)) : List String :=
  sample.map fun cv => cv.1 ++ " " ++ mapJsTypeToDuckDbType cv.2

/-- The `CREATE TABLE IF NOT EXISTS` statement issued by `createTable`. -/
def createTableSql (tableName : String) (sample : List (String × JsValue)) : String :=
  "CREATE TABLE IF NOT EXISTS " ++ tableName ++ " (" ++
    String.intercalate ", " (columnDefs sample) ++ ")"

/-- Message of the `TypeError` the JS runtime throws when `Object.entries`
is applied to the missing sample record of an empty data array. -/
def entriesUndefinedMsg : String := "Cannot convert undefined or null to object"

/-- `createTable` from chakra.ts: reads `data[0]` (a `TypeError` when the
array is empty), derives the column list with `mapJsTypeToDuckDbType` and
posts the create statement. -/
def createTable (env : Env) (n : Nat) (tableName : String)
    (data : List (List (String × JsValue))) : Except Err Unit × Nat × List Ev :=
  match data.head? with
  | none => (.error (.typeError entriesUndefinedMsg), n, [])
  | some sample => singleCall env n (.postQuery (createTableSql tableName sample))

/-- The `DROP TABLE IF EXISTS` statement issued by `replaceExistingTable`. -/
def dropTableSql (tableName : String) : String :=
  "DROP TABLE IF EXISTS " ++ tableName

/-- `replaceExistingTable` from chakra.ts: posts the drop statement. -/
def replaceExistingTable (env : Env) (n : Nat) (tableName : String) :
    Except Err Unit × Nat × List Ev :=
  singleCall env n (.postQuery (dropTableSql tableName))

/-- The options object of `push`, with the defaults applied on
destructuring in `authenticated_push`. -/
structure PushOptions where
  createIfMissing : Bool := true
  replaceIfExists : Bool := false
  dedupeOnAppend : Bool := false
  primaryKeyColumns : List String := []
  deriving DecidableEq, Repr

/-- Message of the error thrown on a table name that is neither one nor
three dot-separated segments. -/
def tableNameErrMsg : String := "Table name must be either a simple name or db.schema.table"

/-- The table-name validation and expansion at the top of
`authenticated_push`: one segment is expanded with the fixed
`duckdb.main.` default, three segments pass unchanged, anything else
throws. -/
def resolveFullName (tableName : String) : Except Err String :=
  let parts := splitOnDot tableName.toList
  if parts.length ≠ 1 ∧ parts.length ≠ 3 then .error (.jsError tableNameErrMsg)
  else if parts.length = 1 then .ok ("duckdb.main." ++ tableName)
  else .ok tableName

/-- The table-lifecycle phase of `authenticated_push`: database and schema
creation when `createIfMissing` or `replaceIfExists`, the drop when
`replaceIfExists`, then table creation when `createIfMissing` or
`replaceIfExists`. -/
def prePhase (env : Env) (n : Nat) (fullName : String)
    (data : List (List (String × JsValue))) (opts : PushOptions) :
    Except Err Unit × Nat × List Ev :=
  let step1 : Except Err Unit × Nat × List Ev :=
    if opts.createIfMissing || opts.replaceIfExists then
      createDatabaseAndSchema env n fullName
    else (.ok (), n, [])
  match step1 with
  | (.error e, n1, t1) => (.error e, n1, t1)
  | (.ok _, n1, t1) =>
    let step2 : Except Err Unit × Nat × List Ev :=
      if opts.replaceIfExists then replaceExistingTable env n1 fullName
      else (.ok (), n1, [])
    match step2 with
    | (.error e, n2, t2) => (.error e, n2, t1 ++ t2)
    | (.ok _, n2, t2) =>
      let step3 : Except Err Unit × Nat × List Ev :=
        if opts.createIfMissing || opts.replaceIfExists then
          createTable env n2 fullName data
        else (.ok (), n2, [])
      match step3 with
      | (.error e, n3, t3) => (.error e, n3, t1 ++ t2 ++ t3)
      | (.ok _, n3, t3) => (.ok (), n3, t1 ++ t2 ++ t3)

/-- The parquet field schema built from the sample record in
`authenticated_push`. -/
def parquetSchemaFields (sample : List (String × JsValue)) :
    List (String × String) :=
  sample.map fun cv => (cv.1, parquetFieldType cv.2)

/-- The upload file name `fullName_uuid.parquet`. -/
def pushFilename (fullName uuid : String) : String :=
  fullName ++ "_" ++ uuid ++ ".parquet"

/-- The storage key returned by the presigned-upload endpoint for a file
name (the remote pairs a key with each granted upload target). -/
def stagedKey (filename : String) : String := "key_" ++ filename

/-- The presigned URL returned by the presigned-upload endpoint. -/
def presignedUrlFor (filename : String) : String := "url_" ++ filename

/-- The body of the inner `try` of `authenticated_push`, run after the
temporary file exists: reads the sample record (a `TypeError` when the
data array is empty), serializes all rows with the parquet schema derived
from the sample, requests the upload target, uploads, imports through the
dedup endpoint or the plain endpoint, and deletes the staged object. -/
def pushInner (env : Env) (n : Nat) (fullName uuid : String)
    (data : List (List (String × JsValue)))
    (dedupeOnAppend : Bool) (primaryKeyColumns : List String) :
    Except Err Unit × Nat × List Ev :=
  match data.head? with
  | none => (.error (.typeError entriesUndefinedMsg), n, [])
  | some sample =>
    let ser : Ev := .serialize (parquetSchemaFields sample) data.length
    let filename := pushFilename fullName uuid
    match singleCall env n (.getPresigned filename) with
    | (.error e, n1, t1) => (.error e, n1, ser :: t1)
    | (.ok _, n1, t1) =>
      let key := stagedKey filename
      match singleCall env n1 (.putUpload (presignedUrlFor filename)) with
      | (.error e, n2, t2) => (.error e, n2, ser :: (t1 ++ t2))
      | (.ok _, n2, t2) =>
        let importEv : Ev :=
          if dedupeOnAppend then .importDedup fullName key primaryKeyColumns
          else .importPlain fullName key
        match singleCall env n2 importEv with
        | (.error e, n3, t3) => (.error e, n3, ser :: (t1 ++ t2 ++ t3))
        | (.ok _, n3, t3) =>
          match singleCall env n3 (.deleteFile key) with
          | (r, n4, t4) => (r, n4, ser :: (t1 ++ t2 ++ t3 ++ t4))

instance exceptDecEq {ε α : Type} [DecidableEq ε] [DecidableEq α] :
    DecidableEq (Except ε α) := fun a b =>
  match a, b with
  | .ok x, .ok y =>
      if h : x = y then .isTrue (by rw [h])
      else .isFalse (by intro hc; injection hc; exact h (by assumption))
  | .error x, .error y =>
      if h : x = y then .isTrue (by rw [h])
      else .isFalse (by intro hc; injection hc; exact h (by assumption))
  | .ok _, .error _ => .isFalse (by intro hc; exact Except.noConfusion hc)
  | .error _, .ok _ => .isFalse (by intro hc; exact Except.noConfusion hc)

/-- Result of `authenticated_push`: the outcome and the full effect trace. -/
structure PushOutcome where
  result : Except Err Unit
  trace : List Ev
  deriving DecidableEq, Repr

/-- `authenticated_push` from chakra.ts: validates and expands the table
name, requires a truthy token, runs the table-lifecycle phase, creates the
temporary file, runs the staged upload and import with the temporary file
cleaned up in `finally`, and routes any caught error of the outer `try`
through `handleApiError`. -/
def authenticated_push (env : Env) (uuid : String) (tableName : String)
    (data : List (List (String × JsValue))) (opts : PushOptions)
    (st : ClientState) : PushOutcome :=
  match resolveFullName tableName with
  | .error e => ⟨.error e, []⟩
  | .ok fullName =>
    if !tokenTruthy st.tokenValue then ⟨.error (.jsError authRequiredMsg), []⟩
    else
      match prePhase env 0 fullName data opts with
      | (.error e, _, tr) => ⟨.error (handleApiError e), tr⟩
      | (.ok _, n1, tr1) =>
        match pushInner env n1 fullName uuid data opts.dedupeOnAppend
            opts.primaryKeyColumns with
        | (.error e, _, tr2) =>
            ⟨.error (handleApiError e), tr1 ++ [.tmpCreated] ++ tr2 ++ [.tmpCleanup]⟩
        | (.ok _, _, tr2) =>
            ⟨.ok (), tr1 ++ [.tmpCreated] ++ tr2 ++ [.tmpCleanup]⟩

/-- A client state holding a valid session token. -/
def authedClient : ClientState := setToken initClient (some "DDB_token")

/-- The rational one half, written as an explicit reduced fraction. -/
def oneHalf : ℚ := ⟨1, 2, by decide, Nat.coprime_one_left 2⟩

/-- Whether an effect is one of the table-lifecycle remote posts. -/
def isSqlEv : Ev → Bool
  | .postDatabases _ => true
  | .postQuery _ => true
  | _ => false

/-- Whether an effect is an upload or import request. -/
def isUploadOrImportEv : Ev → Bool
  | .getPresigned _ => true
  | .putUpload _ => true
  | .importPlain _ _ => true
  | .importDedup _ _ _ => true
  | _ => false

/-- A transport on which only the sixth remote call (the import of a
default-options push) fails, with HTTP 500. -/
def failImportEnv : Env := fun n => if n = 5 then .err 500 else .ok

theorem sqlParquetConsistent_of_value (v : JsValue) :
    sqlParquetConsistent (mapJsTypeToDuckDbType v) (parquetFieldType v) = true := by
  cases v with
  | num q =>
      by_cases h : q.den = 1 <;>
        simp [mapJsTypeToDuckDbType, parquetFieldType, sqlParquetConsistent, h]
  | bool b => rfl
  | date ms => rfl
  | str s => rfl
  | null => rfl
  | undef => rfl

/-- C8: the type-inference function maps integral numbers to BIGINT,
non-integral numbers to DOUBLE, booleans to BOOLEAN, dates to TIMESTAMP and
everything else to VARCHAR, and the parquet field schema derived from the
same sample record (DOUBLE / BOOLEAN / TIMESTAMP_MILLIS / UTF8) is
field-by-field consistent with the SQL column-type derivation. -/
theorem claim_C8_type_inference :
    (∀ q : ℚ, q.den = 1 → mapJsTypeToDuckDbType (.num q) = "BIGINT") ∧
    (∀ q : ℚ, q.den ≠ 1 → mapJsTypeToDuckDbType (.num q) = "DOUBLE") ∧
    (∀ b, mapJsTypeToDuckDbType (.bool b) = "BOOLEAN") ∧
    (∀ ms, mapJsTypeToDuckDbType (.date ms) = "TIMESTAMP") ∧
    (∀ s, mapJsTypeToDuckDbType (.str s) = "VARCHAR") ∧
    mapJsTypeToDuckDbType .null = "VARCHAR" ∧
    mapJsTypeToDuckDbType .undef = "VARCHAR" ∧
    (∀ v, sqlParquetConsistent (mapJsTypeToDuckDbType v) (parquetFieldType v) = true) ∧
    (∀ sample : List (String × JsValue),
      List.Forall₂
        (fun cv pf => pf.1 = cv.1 ∧
          sqlParquetConsistent (mapJsTypeToDuckDbType cv.2) pf.2 = true)
        sample (parquetSchemaFields sample)) := by
  refine ⟨?_, ?_, fun _ => rfl, fun _ => rfl, fun _ => rfl, rfl, rfl,
    sqlParquetConsistent_of_value, ?_⟩
  · intro q h; simp [mapJsTypeToDuckDbType, h]
  · intro q h; simp [mapJsTypeToDuckDbType, h]
  · intro sample
    induction sample with
    | nil => exact List.Forall₂.nil
    | cons cv rest ih =>
        exact List.Forall₂.cons ⟨rfl, sqlParquetConsistent_of_value cv.2⟩ ih

theorem claim_C8_type_inference_witness :
    mapJsTypeToDuckDbType (.num 3) = "BIGINT" ∧
    mapJsTypeToDuckDbType (.num oneHalf) = "DOUBLE" ∧
    sqlParquetConsistent (mapJsTypeToDuckDbType (.date 0)) (parquetFieldType (.date 0)) = true :=
  ⟨claim_C8_type_inference.1 3 (by decide),
   claim_C8_type_inference.2.1 oneHalf (by decide),
   claim_C8_type_inference.2.2.2.2.2.2.2.1 (.date 0)⟩

/-- C2 (amended): `login` sets the session token if and only if the remote
call succeeds and the returned token starts with the `DDB_` tag; otherwise
the token state is unchanged and an error is raised — a plain `Error` when
the tag check fails, and the transport error wrapped as a `ChakraAPIError`
when the endpoint call fails (not a `ChakraAuthError`). -/
theorem claim_C2_login_sets_token (t : String) (e : Err) (st : ClientState) :
    (login (.ok t) st =
      (if startsWithTag t then (.ok (), setToken st (some t))
       else (.error (.jsError tagFailMsg), st))) ∧
    (setToken st (some t)).tokenValue = some t ∧
    login (.error e) st = (.error (handleApiError e), st) ∧
    (∀ s : Nat, login (.error (.axiosError s)) st = (.error (.apiError s), st) ∧
      isChakraAuthErr (.apiError s) = false) ∧
    (startsWithTag t = false →
      login (.ok t) st = (.error (.jsError tagFailMsg), st) ∧
      isChakraAuthErr (.jsError tagFailMsg) = false) := by
  refine ⟨rfl, rfl, rfl, fun s => ⟨rfl, rfl⟩, fun h => ⟨?_, rfl⟩⟩
  simp [login, fetchToken, h]

theorem claim_C2_login_sets_token_witness :
    login (.ok "XYZ") initClient = (.error (.jsError tagFailMsg), initClient) ∧
    isChakraAuthErr (.jsError tagFailMsg) = false :=
  (claim_C2_login_sets_token "XYZ" (.axiosError 500) initClient).2.2.2.2 (by decide)

/-- C2 counterexample: with a remote token "XYZ" the tag check fails and
`login` raises a plain `Error`, not a `ChakraAuthError`; with a failing
endpoint call it raises a `ChakraAPIError`, not a `ChakraAuthError`. -/
theorem claim_C2_counterexample :
    login (.ok "XYZ") initClient = (.error (.jsError tagFailMsg), initClient) ∧
    isChakraAuthErr (.jsError tagFailMsg) = false ∧
    login (.error (.axiosError 500)) initClient = (.error (.apiError 500), initClient) ∧
    isChakraAuthErr (.apiError 500) = false := by
  refine ⟨?_, rfl, rfl, rfl⟩
  simp [login, fetchToken, (by decide : startsWithTag "XYZ" = false)]

/-- C9 (amended): at every reachable client state the `Authorization`
default header is present and equal to `Bearer` followed by the token
exactly when the token is truthy (non-null AND non-empty); the header is
absent at construction and setting the token to null removes it.  The
claim's form — present iff non-null — fails only at the empty string. -/
theorem claim_C9_auth_header (st : ClientState) (h : ReachableClient st) :
    (st.authHeader =
      if tokenTruthy st.tokenValue
      then some ("Bearer " ++ st.tokenValue.getD "") else none) ∧
    initClient.authHeader = none ∧
    (∀ s, (setToken s none).authHeader = none) ∧
    (∀ s v, v ≠ "" → (setToken s (some v)).authHeader = some ("Bearer " ++ v)) := by
  refine ⟨?_, rfl, fun _ => rfl, fun s v hv => ?_⟩
  · induction h with
    | init => rfl
    | set st v _ _ => rfl
  · simp [setToken, tokenTruthy, hv]

theorem claim_C9_auth_header_witness :
    (setToken initClient (some "DDB_token")).authHeader =
      (if tokenTruthy (setToken initClient (some "DDB_token")).tokenValue
       then some ("Bearer " ++ (setToken initClient (some "DDB_token")).tokenValue.getD "")
       else none) :=
  (claim_C9_auth_header _ (ReachableClient.set _ _ ReachableClient.init)).1

/-- C9 counterexample: setting the token to the empty string leaves the
token non-null while the `Authorization` header is absent, refuting the
claimed "header present iff token non-null" equivalence. -/
theorem claim_C9_counterexample :
    (setToken initClient (some "")).tokenValue = some "" ∧
    (setToken initClient (some "")).authHeader = none := ⟨rfl, rfl⟩

/-- C1: under `ensureAuthenticated`, with a valid token held: a failure
that is not a 401 authorization failure is propagated at once with no
re-login and no retry; a single 401 causes exactly one re-login and one
retry which can succeed; three consecutive 401s exhaust the 3-attempt
budget (one operation invocation per attempt) and raise the
`ChakraAuthError`. -/
theorem claim_C1_retry_policy {α : Type} (loginRes : Nat → Except Err String)
    (opRes : Nat → Except Err α) :
    (∀ e, opRes 0 = .error e → isAuthFailure e = false →
      ensureAuthenticated loginRes opRes authedClient = ⟨.error e, 0, 1⟩) ∧
    ((∀ k, loginRes k = .ok "DDB_t") → (∀ k, opRes k = .error (.axiosError 401)) →
      ensureAuthenticated loginRes opRes authedClient =
        ⟨.error (.authError attemptsExhaustedMsg), 3, 3⟩) ∧
    (∀ a, loginRes 0 = .ok "DDB_t" → opRes 0 = .error (.apiError 401) →
      opRes 1 = .ok a →
      ensureAuthenticated loginRes opRes authedClient = ⟨.ok a, 1, 2⟩) := by
  have htok : tokenTruthy authedClient.tokenValue = true := by decide
  have hddb : startsWithTag "DDB_t" = true := by decide
  have htr : tokenTruthy (some "DDB_t") = true := by decide
  refine ⟨?_, ?_, ?_⟩
  · intro e h0 hna
    simp [ensureAuthenticated, ensureAuthGo, htok, h0, hna]
  · intro hl hop
    simp [ensureAuthenticated, ensureAuthGo, htok, htr, hl, hop, login, fetchToken,
      hddb, isAuthFailure, setToken]
  · intro a hl0 h0 h1
    simp [ensureAuthenticated, ensureAuthGo, htok, htr, hl0, h0, h1, login, fetchToken,
      hddb, isAuthFailure, setToken]

theorem claim_C1_retry_policy_witness :
    ensureAuthenticated (fun _ => .ok "DDB_t")
        (fun _ => (.error (.axiosError 500) : Except Err Nat)) authedClient =
      ⟨.error (.axiosError 500), 0, 1⟩ ∧
    ensureAuthenticated (fun _ => .ok "DDB_t")
        (fun _ => (.error (.axiosError 401) : Except Err Nat)) authedClient =
      ⟨.error (.authError attemptsExhaustedMsg), 3, 3⟩ ∧
    ensureAuthenticated (fun _ => .ok "DDB_t")
        (fun k => if k = 0 then (.error (.apiError 401) : Except Err Nat) else .ok 7)
        authedClient =
      ⟨.ok 7, 1, 2⟩ :=
  ⟨(claim_C1_retry_policy _ _).1 _ rfl (by decide),
   (claim_C1_retry_policy _ _).2.1 (fun _ => rfl) (fun _ => rfl),
   (claim_C1_retry_policy _ _).2.2 7 rfl rfl rfl⟩

theorem replaceTokens_ok {α : Type} (params : List α) (ts : List (Char ⊕ Nat))
    (h : ∀ m ∈ ts.filterMap tokNum, 1 ≤ m ∧ m ≤ params.length) :
    replaceTokens params ts =
      .ok (ts.map rewriteTok,
        (ts.filterMap tokNum).filterMap fun m => params[m - 1]?) := by
  induction ts with
  | nil => rfl
  | cons t ts ih =>
    cases t with
    | inl c =>
      rw [replaceTokens, ih (fun m hm => h m (by simp [tokNum, hm]))]
      simp [tokNum, rewriteTok]
    | inr n =>
      obtain ⟨h1, h2⟩ := h n (by simp [tokNum])
      obtain ⟨k, rfl⟩ : ∃ k, n = k + 1 := ⟨n - 1, by omega⟩
      have hlt : k < params.length := by omega
      obtain ⟨p, hp⟩ : ∃ p, params[k]? = some p := ⟨_, List.getElem?_eq_getElem hlt⟩
      simp only [replaceTokens, hp]
      rw [ih (fun m hm => h m (by simp [tokNum, hm]))]
      simp [hp, tokNum, rewriteTok]

theorem replaceTokens_err {α : Type} (params : List α) (ts : List (Char ⊕ Nat))
    (h : ∃ m ∈ ts.filterMap tokNum, m = 0 ∨ params.length < m) :
    replaceTokens params ts = .error (.jsError paramErrMsg) := by
  induction ts with
  | nil => simp at h
  | cons t ts ih =>
    cases t with
    | inl c =>
      have h' : ∃ m ∈ ts.filterMap tokNum, m = 0 ∨ params.length < m := by
        simpa [tokNum] using h
      simp [replaceTokens, ih h']
    | inr n =>
      obtain ⟨m, hm, hbad⟩ := h
      simp [tokNum] at hm
      cases n with
      | zero => simp [replaceTokens]
      | succ k =>
        cases hg : params[k]? with
        | none => simp [replaceTokens, hg]
        | some p =>
          have hk : k + 1 ≤ params.length := by
            by_contra hc
            have hnone : params[k]? = none := List.getElem?_eq_none (by omega)
            simp [hnone] at hg
          rcases hm with rfl | hmem
          · rcases hbad with h0 | hlt <;> omega
          · exact (by simp [replaceTokens, hg,
              ih ⟨m, List.mem_filterMap.mpr ⟨Sum.inr m, hmem, rfl⟩, hbad⟩])

theorem qhp_of_occ_ne_nil (q : List Char) (h : ppOccurrences q ≠ []) :
    queryHasPositionalParameters q = true := by
  induction q using scanTokens.induct with
  | case1 => simp [ppOccurrences, scanTokens] at h
  | case2 cs htake ih =>
    have hocc : ppOccurrences cs ≠ [] := by
      simpa [ppOccurrences, scanTokens, htake, tokNum] using h
    cases cs with
    | nil => simp [ppOccurrences, scanTokens] at hocc
    | cons d r => simp [queryHasPositionalParameters, ih hocc]
  | case3 cs htake ih =>
    cases cs with
    | nil => simp [takeDigits] at htake
    | cons e tl =>
      have he : e.isDigit = true := by
        by_contra hc
        simp only [Bool.not_eq_true] at hc
        simp [takeDigits, hc] at htake
      simp [queryHasPositionalParameters, he]
  | case4 c cs hc ih =>
    have hocc : ppOccurrences cs ≠ [] := by
      simpa [ppOccurrences, scanTokens, hc, tokNum] using h
    cases cs with
    | nil => simp [ppOccurrences, scanTokens] at hocc
    | cons d r => simp [queryHasPositionalParameters, ih hocc]

/-- C5 (amended): placeholders are rewritten to `?` preserving left-to-right
order and the parameter array is reordered to match the occurrence order;
a referenced index outside the bounds of the supplied parameter array
(including index 0) raises the error before any network call.  No separate
ceiling of 8 parameters is enforced — the error merely mentions 8 in its
message; only the array bounds are checked. -/
theorem claim_C5_positional_params {α : Type} (params : List α) (q : List Char)
    (ps : List JsValue) (resp : Except Nat (List String × List (List JsValue))) :
    ((∀ m ∈ ppOccurrences q, 1 ≤ m ∧ m ≤ params.length) →
      replacePositionalParameters params q =
        .ok (rewriteQuery q, (ppOccurrences q).filterMap fun m => params[m - 1]?)) ∧
    ((∃ m ∈ ppOccurrences q, m = 0 ∨ params.length < m) →
      replacePositionalParameters params q = .error (.jsError paramErrMsg)) ∧
    ((∃ m ∈ ppOccurrences q, m = 0 ∨ ps.length < m) →
      authenticated_execute resp q ps authedClient =
        ⟨.error (.jsError paramErrMsg), []⟩) ∧
    (∀ q' ps', ppOccurrences q ≠ [] →
      replacePositionalParameters ps q = .ok (q', ps') →
      (authenticated_execute resp q ps authedClient).posts = [(q', ps')]) := by
  have htok : (!tokenTruthy authedClient.tokenValue) = false := by decide
  refine ⟨fun h => replaceTokens_ok params _ h,
    fun h => replaceTokens_err params _ h, fun h => ?_, fun q' ps' hne hrep => ?_⟩
  · have hqhp : queryHasPositionalParameters q = true :=
      qhp_of_occ_ne_nil q (by rcases h with ⟨m, hm, _⟩; exact List.ne_nil_of_mem hm)
    have herr : replacePositionalParameters ps q = .error (.jsError paramErrMsg) :=
      replaceTokens_err ps _ h
    simp [authenticated_execute, htok, hqhp, herr, handleApiError]
  · have hqhp := qhp_of_occ_ne_nil q hne
    cases resp <;> simp [authenticated_execute, htok, hqhp, hrep]

theorem claim_C5_positional_params_witness :
    replacePositionalParameters [10, 20] ['$', '2', ' ', '$', '1'] =
      .ok (['?', ' ', '?'], [20, 10]) ∧
    replacePositionalParameters ([10] : List Nat) ['$', '2'] =
      .error (.jsError paramErrMsg) := by
  have h1 := (claim_C5_positional_params [10, 20] ['$', '2', ' ', '$', '1'] []
    (.error 0)).1
  have h2 := (claim_C5_positional_params ([10] : List Nat) ['$', '2'] []
    (.error 0)).2.1
  constructor
  · rw [h1]
    · simp [rewriteQuery, ppOccurrences, scanTokens, takeDigits, digitsToNat,
        tokNum, rewriteTok]
    · intro m hm
      simp [ppOccurrences, scanTokens, takeDigits, digitsToNat, tokNum] at hm
      rcases hm with rfl | rfl <;> simp
  · refine h2 ⟨2, ?_, by simp⟩
    simp [ppOccurrences, scanTokens, takeDigits, digitsToNat, tokNum]

/-- C5 counterexample: the placeholder `$9` with nine supplied parameters
references index 9, beyond the claimed fixed ceiling of 8, yet the rewrite
succeeds instead of raising a ParameterError: only the array bounds are
checked. -/
theorem claim_C5_counterexample :
    replacePositionalParameters [10, 20, 30, 40, 50, 60, 70, 80, 90] ['$', '9'] =
      .ok (['?'], [90]) ∧
    ppOccurrences ['$', '9'] = [9] := by
  constructor <;>
    simp [replacePositionalParameters, scanTokens, takeDigits, digitsToNat,
      replaceTokens, ppOccurrences, tokNum]

/-- C6: table references with one dot-separated segment are expanded with
the fixed `duckdb.main.` default, three segments pass unchanged, and any
other segment count is rejected with the validation error, with no remote
call issued. -/
theorem claim_C6_table_name (t : String) (env : Env) (uuid : String)
    (data : List (List (String × JsValue))) (opts : PushOptions)
    (st : ClientState) :
    ((splitOnDot t.toList).length = 1 →
      resolveFullName t = .ok ("duckdb.main." ++ t)) ∧
    ((splitOnDot t.toList).length = 3 → resolveFullName t = .ok t) ∧
    ((splitOnDot t.toList).length ≠ 1 → (splitOnDot t.toList).length ≠ 3 →
      authenticated_push env uuid t data opts st =
        ⟨.error (.jsError tableNameErrMsg), []⟩) ∧
    resolveFullName "students" = .ok "duckdb.main.students" ∧
    resolveFullName "a.b" = .error (.jsError tableNameErrMsg) := by
  refine ⟨fun h1 => ?_, fun h3 => ?_, fun hn1 hn3 => ?_, by decide, by decide⟩
  · simp only [String.toList] at h1
    simp [resolveFullName, h1]
  · simp only [String.toList] at h3
    simp [resolveFullName, h3]
  · simp only [String.toList] at hn1 hn3
    have hres : resolveFullName t = .error (.jsError tableNameErrMsg) := by
      simp [resolveFullName, hn1, hn3]
    simp [authenticated_push, hres]

theorem claim_C6_table_name_witness :
    authenticated_push okEnv "u" "a.b" [] {} authedClient =
      ⟨.error (.jsError tableNameErrMsg), []⟩ ∧
    resolveFullName "students" = .ok "duckdb.main.students" :=
  ⟨(claim_C6_table_name "a.b" okEnv "u" [] {} authedClient).2.2.1
      (by decide) (by decide),
   (claim_C6_table_name "a.b" okEnv "u" [] {} authedClient).2.2.2.1⟩

/-- C7: with `createIfMissing` and no replace, the push issues the database
and schema creation, the table creation and then the plain import, in that
order with no drop; with `replaceIfExists` it issues schema creation, the
drop, the creation and then the plain import, in that order, for either
value of `createIfMissing`. -/
theorem claim_C7_lifecycle_order (uuid t : String) (s : List (String × JsValue))
    (r : List (List (String × JsValue))) (cim : Bool)
    (h3 : (splitOnDot t.toList).length = 3) :
    (authenticated_push okEnv uuid t (s :: r)
        { createIfMissing := true, replaceIfExists := false } authedClient).trace =
      [.postDatabases (String.mk ((splitOnDot t.toList).getD 0 [])),
       .postQuery (createSchemaSql (String.mk ((splitOnDot t.toList).getD 0 []))
         (String.mk ((splitOnDot t.toList).getD 1 []))),
       .postQuery (createTableSql t s),
       .tmpCreated,
       .serialize (parquetSchemaFields s) (s :: r).length,
       .getPresigned (pushFilename t uuid),
       .putUpload (presignedUrlFor (pushFilename t uuid)),
       .importPlain t (stagedKey (pushFilename t uuid)),
       .deleteFile (stagedKey (pushFilename t uuid)),
       .tmpCleanup] ∧
    (authenticated_push okEnv uuid t (s :: r)
        { createIfMissing := cim, replaceIfExists := true } authedClient).trace =
      [.postDatabases (String.mk ((splitOnDot t.toList).getD 0 [])),
       .postQuery (createSchemaSql (String.mk ((splitOnDot t.toList).getD 0 []))
         (String.mk ((splitOnDot t.toList).getD 1 []))),
       .postQuery (dropTableSql t),
       .postQuery (createTableSql t s),
       .tmpCreated,
       .serialize (parquetSchemaFields s) (s :: r).length,
       .getPresigned (pushFilename t uuid),
       .putUpload (presignedUrlFor (pushFilename t uuid)),
       .importPlain t (stagedKey (pushFilename t uuid)),
       .deleteFile (stagedKey (pushFilename t uuid)),
       .tmpCleanup] := by
  simp only [String.toList] at h3
  have hres : resolveFullName t = .ok t := by simp [resolveFullName, h3]
  have htok : (!tokenTruthy authedClient.tokenValue) = false := by decide
  constructor <;>
    simp [authenticated_push, hres, htok, prePhase, createDatabaseAndSchema,
      createTable, replaceExistingTable, singleCall, okEnv, pushInner]

theorem claim_C7_lifecycle_order_witness :
    (authenticated_push okEnv "u" "db.sch.t" [[("id", JsValue.bool true)]]
        { createIfMissing := true, replaceIfExists := false } authedClient).trace =
      [.postDatabases "db",
       .postQuery (createSchemaSql "db" "sch"),
       .postQuery (createTableSql "db.sch.t" [("id", JsValue.bool true)]),
       .tmpCreated,
       .serialize (parquetSchemaFields [("id", JsValue.bool true)]) 1,
       .getPresigned (pushFilename "db.sch.t" "u"),
       .putUpload (presignedUrlFor (pushFilename "db.sch.t" "u")),
       .importPlain "db.sch.t" (stagedKey (pushFilename "db.sch.t" "u")),
       .deleteFile (stagedKey (pushFilename "db.sch.t" "u")),
       .tmpCleanup] ∧
    (authenticated_push okEnv "u" "db.sch.t" [[("id", JsValue.bool true)]]
        { createIfMissing := false, replaceIfExists := true } authedClient).trace =
      [.postDatabases "db",
       .postQuery (createSchemaSql "db" "sch"),
       .postQuery (dropTableSql "db.sch.t"),
       .postQuery (createTableSql "db.sch.t" [("id", JsValue.bool true)]),
       .tmpCreated,
       .serialize (parquetSchemaFields [("id", JsValue.bool true)]) 1,
       .getPresigned (pushFilename "db.sch.t" "u"),
       .putUpload (presignedUrlFor (pushFilename "db.sch.t" "u")),
       .importPlain "db.sch.t" (stagedKey (pushFilename "db.sch.t" "u")),
       .deleteFile (stagedKey (pushFilename "db.sch.t" "u")),
       .tmpCleanup] := by
  have h := claim_C7_lifecycle_order "u" "db.sch.t" [("id", JsValue.bool true)]
    [] false (by decide)
  exact ⟨by rw [h.1]; decide, by rw [h.2]; decide⟩

/-- C4 (amended): no validation of `primaryKeyColumns` is performed: a push
with `dedupeOnAppend` true and the default empty `primaryKeyColumns`
proceeds without error and invokes the dedup import endpoint with the
empty primary-key-column list. -/
theorem claim_C4_no_dedup_validation (uuid t : String)
    (s : List (String × JsValue)) (r : List (List (String × JsValue)))
    (h3 : (splitOnDot t.toList).length = 3) :
    (authenticated_push okEnv uuid t (s :: r) { dedupeOnAppend := true }
      authedClient).result = .ok () ∧
    Ev.importDedup t (stagedKey (pushFilename t uuid)) [] ∈
      (authenticated_push okEnv uuid t (s :: r) { dedupeOnAppend := true }
        authedClient).trace := by
  simp only [String.toList] at h3
  have hres : resolveFullName t = .ok t := by simp [resolveFullName, h3]
  have htok : (!tokenTruthy authedClient.tokenValue) = false := by decide
  constructor <;>
    simp [authenticated_push, hres, htok, prePhase, createDatabaseAndSchema,
      createTable, singleCall, okEnv, pushInner]

theorem claim_C4_no_dedup_validation_witness :
    (authenticated_push okEnv "u" "db.sch.t" [[("id", JsValue.num 1)]]
      { dedupeOnAppend := true } authedClient).result = .ok () :=
  (claim_C4_no_dedup_validation "u" "db.sch.t" [("id", JsValue.num 1)] []
    (by decide)).1

/-- C4 counterexample: a push with `dedupeOnAppend` true and
`primaryKeyColumns` absent raises no ValidationError — it succeeds, and the
dedup import endpoint is invoked with the empty primary-key-column list. -/
theorem claim_C4_counterexample :
    (authenticated_push okEnv "u1" "students" [[("id", JsValue.num 1)]]
      { dedupeOnAppend := true } authedClient).result = .ok () ∧
    Ev.importDedup "duckdb.main.students"
        (stagedKey (pushFilename "duckdb.main.students" "u1")) [] ∈
      (authenticated_push okEnv "u1" "students" [[("id", JsValue.num 1)]]
        { dedupeOnAppend := true } authedClient).trace := by
  decide

/-- C10: a push with an empty record set fails with the `TypeError` thrown
while reading the fields of the absent sample record, before any upload
request or import request is issued. -/
theorem claim_C10_empty_push (uuid t : String) (opts : PushOptions)
    (h : (splitOnDot t.toList).length = 1 ∨ (splitOnDot t.toList).length = 3) :
    (authenticated_push okEnv uuid t [] opts authedClient).result =
      .error (.typeError entriesUndefinedMsg) ∧
    ∀ e ∈ (authenticated_push okEnv uuid t [] opts authedClient).trace,
      isUploadOrImportEv e = false := by
  have htok : (!tokenTruthy authedClient.tokenValue) = false := by decide
  simp only [String.toList] at h
  obtain ⟨fullName, hres⟩ : ∃ f, resolveFullName t = .ok f := by
    rcases h with h1 | h3
    · exact ⟨"duckdb.main." ++ t, by simp [resolveFullName, h1]⟩
    · exact ⟨t, by simp [resolveFullName, h3]⟩
  obtain ⟨cim, rie, doa, pk⟩ := opts
  cases cim <;> cases rie <;>
    constructor <;>
      simp [authenticated_push, hres, htok, prePhase, createDatabaseAndSchema,
        createTable, replaceExistingTable, singleCall, okEnv, pushInner,
        isUploadOrImportEv, handleApiError]

theorem claim_C10_empty_push_witness :
    (authenticated_push okEnv "u" "students" [] {} authedClient).result =
      .error (.typeError entriesUndefinedMsg) :=
  (claim_C10_empty_push "u" "students" {} (Or.inl (by decide))).1

theorem singleCall_trace (env : Env) (n : Nat) (ev : Ev) :
    (singleCall env n ev).2.2 = [ev] := by
  unfold singleCall
  cases env n <;> rfl

theorem createDatabaseAndSchema_sql (env : Env) (n : Nat) (t : String) :
    ∀ e ∈ (createDatabaseAndSchema env n t).2.2, isSqlEv e = true := by
  unfold createDatabaseAndSchema singleCall
  cases henv : env n with
  | ok =>
      cases henv2 : env (n + 1) <;> simp [isSqlEv]
  | err s =>
      by_cases h409 : s = 409
      · cases henv2 : env (n + 1) <;> simp [h409, isSqlEv]
      · simp [h409, isSqlEv]

theorem createTable_sql (env : Env) (n : Nat) (t : String)
    (data : List (List (String × JsValue))) :
    ∀ e ∈ (createTable env n t data).2.2, isSqlEv e = true := by
  unfold createTable singleCall
  cases data.head? with
  | none => simp
  | some sample => cases env n <;> simp [isSqlEv]

theorem replaceExistingTable_sql (env : Env) (n : Nat) (t : String) :
    ∀ e ∈ (replaceExistingTable env n t).2.2, isSqlEv e = true := by
  unfold replaceExistingTable singleCall
  cases env n <;> simp [isSqlEv]

theorem prePhase_sql (env : Env) (n : Nat) (fullName : String)
    (data : List (List (String × JsValue))) (opts : PushOptions) :
    ∀ e ∈ (prePhase env n fullName data opts).2.2, isSqlEv e = true := by
  intro e he
  unfold prePhase at he
  obtain ⟨cim, rie, doa, pk⟩ := opts
  cases cim <;> cases rie <;> simp only [Bool.or_self, Bool.or_true, Bool.true_or,
    Bool.false_or, if_true, if_false, Bool.false_eq_true, Bool.true_eq_false,
    ite_true, ite_false] at he
  case mk.false.false => cases he
  case mk.false.true =>
    rcases h1 : createDatabaseAndSchema env n fullName with ⟨r1, n1, t1⟩
    rw [h1] at he
    have hs1 := createDatabaseAndSchema_sql env n fullName
    rw [h1] at hs1
    cases r1 with
    | error e1 => exact hs1 e he
    | ok u =>
        dsimp only at he
        rcases h2 : replaceExistingTable env n1 fullName with ⟨r2, n2, t2⟩
        rw [h2] at he
        have hs2 := replaceExistingTable_sql env n1 fullName
        rw [h2] at hs2
        cases r2 with
        | error e2 =>
            dsimp only at he
            rcases List.mem_append.mp he with hx | hx
            · exact hs1 e hx
            · exact hs2 e hx
        | ok u2 =>
            dsimp only at he
            rcases h3 : createTable env n2 fullName data with ⟨r3, n3, t3⟩
            rw [h3] at he
            have hs3 := createTable_sql env n2 fullName data
            rw [h3] at hs3
            cases r3 with
            | error e3 =>
                dsimp only at he
                rcases List.mem_append.mp he with hx | hx
                · rcases List.mem_append.mp hx with hy | hy
                  · exact hs1 e hy
                  · exact hs2 e hy
                · exact hs3 e hx
            | ok u3 =>
                dsimp only at he
                rcases List.mem_append.mp he with hx | hx
                · rcases List.mem_append.mp hx with hy | hy
                  · exact hs1 e hy
                  · exact hs2 e hy
                · exact hs3 e hx
  case mk.true.false =>
    rcases h1 : createDatabaseAndSchema env n fullName with ⟨r1, n1, t1⟩
    rw [h1] at he
    have hs1 := createDatabaseAndSchema_sql env n fullName
    rw [h1] at hs1
    cases r1 with
    | error e1 => exact hs1 e he
    | ok u =>
        dsimp only at he
        rcases h3 : createTable env n1 fullName data with ⟨r3, n3, t3⟩
        rw [h3] at he
        have hs3 := createTable_sql env n1 fullName data
        rw [h3] at hs3
        cases r3 with
        | error e3 =>
            dsimp only at he
            rcases List.mem_append.mp he with hx | hx
            · rcases List.mem_append.mp hx with hy | hy
              · exact hs1 e hy
              · cases hy
            · exact hs3 e hx
        | ok u3 =>
            dsimp only at he
            rcases List.mem_append.mp he with hx | hx
            · rcases List.mem_append.mp hx with hy | hy
              · exact hs1 e hy
              · cases hy
            · exact hs3 e hx
  case mk.true.true =>
    rcases h1 : createDatabaseAndSchema env n fullName with ⟨r1, n1, t1⟩
    rw [h1] at he
    have hs1 := createDatabaseAndSchema_sql env n fullName
    rw [h1] at hs1
    cases r1 with
    | error e1 => exact hs1 e he
    | ok u =>
        dsimp only at he
        rcases h2 : replaceExistingTable env n1 fullName with ⟨r2, n2, t2⟩
        rw [h2] at he
        have hs2 := replaceExistingTable_sql env n1 fullName
        rw [h2] at hs2
        cases r2 with
        | error e2 =>
            dsimp only at he
            rcases List.mem_append.mp he with hx | hx
            · exact hs1 e hx
            · exact hs2 e hx
        | ok u2 =>
            dsimp only at he
            rcases h3 : createTable env n2 fullName data with ⟨r3, n3, t3⟩
            rw [h3] at he
            have hs3 := createTable_sql env n2 fullName data
            rw [h3] at hs3
            cases r3 with
            | error e3 =>
                dsimp only at he
                rcases List.mem_append.mp he with hx | hx
                · rcases List.mem_append.mp hx with hy | hy
                  · exact hs1 e hy
                  · exact hs2 e hy
                · exact hs3 e hx
            | ok u3 =>
                dsimp only at he
                rcases List.mem_append.mp he with hx | hx
                · rcases List.mem_append.mp hx with hy | hy
                  · exact hs1 e hy
                  · exact hs2 e hy
                · exact hs3 e hx

theorem pushInner_ok_delete (env : Env) (n : Nat) (fullName uuid : String)
    (data : List (List (String × JsValue))) (doa : Bool) (pk : List String)
    (h : (pushInner env n fullName uuid data doa pk).1 = .ok ()) :
    Ev.deleteFile (stagedKey (pushFilename fullName uuid)) ∈
      (pushInner env n fullName uuid data doa pk).2.2 := by
  unfold pushInner at h ⊢
  cases hd : data.head? with
  | none => simp [hd] at h
  | some sample =>
    simp only [hd] at h ⊢
    unfold singleCall at h ⊢
    cases h1 : env n with
    | err s => simp [h1] at h
    | ok =>
      simp only [h1] at h ⊢
      cases h2 : env (n + 1) with
      | err s => simp [h2] at h
      | ok =>
        simp only [h2] at h ⊢
        cases h3 : env (n + 1 + 1) with
        | err s => simp [h3] at h
        | ok =>
          simp only [h3] at h ⊢
          cases h4 : env (n + 1 + 1 + 1) <;> simp [h4]

/-- C3 (amended): the local temporary file is always released — whenever it
was created, the cleanup runs, whichever later stage failed; but the staged
remote object is deleted only on the path where the import succeeded: on
the success path a delete request is issued, while a failed import skips
it. -/
theorem claim_C3_cleanup (env : Env) (uuid tableName : String)
    (data : List (List (String × JsValue))) (opts : PushOptions)
    (st : ClientState) :
    (Ev.tmpCreated ∈ (authenticated_push env uuid tableName data opts st).trace →
      Ev.tmpCleanup ∈ (authenticated_push env uuid tableName data opts st).trace) ∧
    ((authenticated_push env uuid tableName data opts st).result = .ok () →
      ∃ k, Ev.deleteFile k ∈
        (authenticated_push env uuid tableName data opts st).trace) := by
  unfold authenticated_push
  cases hres : resolveFullName tableName with
  | error e => simp
  | ok fullName =>
    by_cases htok : (!tokenTruthy st.tokenValue) = true
    · simp [htok]
    · simp only [htok, Bool.false_eq_true, if_false]
      rcases hpre : prePhase env 0 fullName data opts with ⟨r1, n1, t1⟩
      cases r1 with
      | error e1 =>
          dsimp only
          constructor
          · intro hmem
            have hall := prePhase_sql env 0 fullName data opts
            rw [hpre] at hall
            have h2 := hall Ev.tmpCreated hmem
            simp [isSqlEv] at h2
          · intro hr
            simp at hr
      | ok u =>
          dsimp only
          rcases hinner : pushInner env n1 fullName uuid data
              opts.dedupeOnAppend opts.primaryKeyColumns with ⟨r2, n2, t2⟩
          cases r2 with
          | error e2 =>
              dsimp only
              constructor
              · intro hmem
                simp [List.mem_append]
              · intro hr
                simp at hr
          | ok u2 =>
              dsimp only
              constructor
              · intro hmem
                simp [List.mem_append]
              · intro hok
                refine ⟨stagedKey (pushFilename fullName uuid), ?_⟩
                have hdel := pushInner_ok_delete env n1 fullName uuid data
                  opts.dedupeOnAppend opts.primaryKeyColumns (by rw [hinner])
                rw [hinner] at hdel
                simp only at hdel
                simp [List.mem_append, hdel]

theorem claim_C3_cleanup_witness :
    Ev.tmpCleanup ∈ (authenticated_push failImportEnv "u1" "students"
      [[("id", JsValue.bool true)]] {} authedClient).trace ∧
    Ev.deleteFile (stagedKey (pushFilename "duckdb.main.students" "u1")) ∈
      (authenticated_push okEnv "u1" "students"
        [[("id", JsValue.bool true)]] {} authedClient).trace := by
  constructor
  · exact (claim_C3_cleanup failImportEnv "u1" "students"
      [[("id", JsValue.bool true)]] {} authedClient).1 (by decide)
  · have h := (claim_C3_cleanup okEnv "u1" "students"
      [[("id", JsValue.bool true)]] {} authedClient).2 (by decide)
    decide

/-- C3 counterexample: with a transport on which the import call fails, a
push that has created the temporary file and uploaded the staged object
unlinks the temporary file but issues no remote delete of the staged
object — the staged object is not released even though it was created. -/
theorem claim_C3_counterexample :
    (authenticated_push failImportEnv "u1" "students"
      [[("id", JsValue.bool true)]] {} authedClient).result =
        .error (.apiError 500) ∧
    Ev.putUpload (presignedUrlFor (pushFilename "duckdb.main.students" "u1")) ∈
      (authenticated_push failImportEnv "u1" "students"
        [[("id", JsValue.bool true)]] {} authedClient).trace ∧
    Ev.tmpCreated ∈ (authenticated_push failImportEnv "u1" "students"
      [[("id", JsValue.bool true)]] {} authedClient).trace ∧
    Ev.tmpCleanup ∈ (authenticated_push failImportEnv "u1" "students"
      [[("id", JsValue.bool true)]] {} authedClient).trace ∧
    Ev.deleteFile (stagedKey (pushFilename "duckdb.main.students" "u1")) ∉
      (authenticated_push failImportEnv "u1" "students"
        [[("id", JsValue.bool true)]] {} authedClient).trace := by
  decide

end ChakraSpec
